/-
Verification of the JUnit XML report interpreter (junitxml_parse.py).

The development shallowly embeds the `JUnitXMLHandler` SAX content handler:
its mutable instance attributes become a `JUnitState` record, each
`_start_*` / `_end_*` method becomes a state-transition function, Python
exceptions (KeyError / ValueError / AssertionError / TypeError) become an
`Except PyErr` result, and a parse is a fold of `step` over the event list.

Python string primitives that the source uses (`str.split`, `str.rpartition`,
`str.startswith`, slicing, `int(...)`) are modelled by executable char-list
functions below so that every definition evaluates inside the kernel.
-/
import Mathlib

/-- Attribute mapping of one XML element, as handed to `startElement` by the
SAX driver: an association list with unique keys, first match wins. -/
def AttrMap := List (String × String)

/-- Models Python `attrs.get(key)`: `some` value or `none` when absent. -/
def pyGet : AttrMap → String → Option String
  | [], _ => none
  | (k, v) :: rest, key => if k = key then some v else pyGet rest key

/-- Models Python truthiness of an optional string: `None` and `""` are
falsy, every other string is truthy. -/
def pyTruthy : Option String → Bool
  | none => false
  | some str => if str = "" then false else true

/-- Models `name.replace("-", "_")` from `startElement` (line 62): the
pattern is a single character, so the replacement is a character map. -/
def pyKey (s : String) : String :=
  String.mk (s.data.map fun c => if c = '-' then '_' else c)

/-- Boolean prefix test on character lists. -/
def charPre : List Char → List Char → Bool
  | [], _ => true
  | _ :: _, [] => false
  | a :: as, b :: bs => if a = b then charPre as bs else false

/-- Models Python `s.startswith(pre)`. -/
def pyStartsWith (s pre : String) : Bool := charPre pre.data s.data

/-- Helper for `pySplitChar`: accumulates the current field (reversed). -/
def splitCharAux (sep : Char) (acc : List Char) : List Char → List String
  | [] => [String.mk acc.reverse]
  | c :: cs =>
    if c = sep then String.mk acc.reverse :: splitCharAux sep [] cs
    else splitCharAux sep (c :: acc) cs

/-- Models Python `s.split(sep)` for a one-character separator; like the
Python original, `"".split(sep) = [""]` and separators at the ends produce
empty fields. -/
def pySplitChar (sep : Char) (s : String) : List String := splitCharAux sep [] s.data

/-- Models `test_class.split(".")`. -/
def pySplitDot (s : String) : List String := pySplitChar '.' s

/-- Models Python slicing `s[n:]` (the source slices by `len(prefix)`). -/
def pyDropStr (s : String) (n : Nat) : String := String.mk (s.data.drop n)

/-- Whitespace test used by the `int(...)` model (Python `int` strips
surrounding whitespace before converting). -/
def pyIsWs (c : Char) : Bool :=
  if c = ' ' then true else if c = '\t' then true
  else if c = '\n' then true else if c = '\r' then true else false

/-- Accumulates the decimal value of a digit run; `none` on a non-digit. -/
def digitsValAux : Nat → List Char → Option Nat
  | acc, [] => some acc
  | acc, c :: cs =>
    if 48 ≤ c.toNat ∧ c.toNat ≤ 57 then digitsValAux (10 * acc + (c.toNat - 48)) cs
    else none

/-- Decimal value of a nonempty digit run, `none` otherwise. -/
def digitsVal : List Char → Option Nat
  | [] => none
  | cs => digitsValAux 0 cs

/-- Models Python `int(s)` on canonical decimal literals: surrounding
whitespace stripped, optional sign, at least one digit; `none` models the
`ValueError` raised otherwise. -/
def pyParseInt (s : String) : Option Int :=
  let cs := ((s.data.dropWhile pyIsWs).reverse.dropWhile pyIsWs).reverse
  match cs with
  | '-' :: rest => (digitsVal rest).map (fun n => -(n : Int))
  | '+' :: rest => (digitsVal rest).map (fun n => (n : Int))
  | rest => (digitsVal rest).map (fun n => (n : Int))

/-- Single-quote character, used to model Python `repr` of a string. -/
def sqChar : String := String.singleton (Char.ofNat 39)

/-- Models Python `repr` for the optional suite name (`{name!r}` in the
warning on line 135): `None` or the string in single quotes (quote-free
strings only, which covers every input in this development). -/
def pyRepr : Option String → String
  | none => "None"
  | some str => sqChar ++ str ++ sqChar

/-- Models the exceptions the handler can raise or propagate. -/
inductive PyErr where
  | keyError : String → PyErr
  | valueError : String → PyErr
  | assertionError : PyErr
  | typeError : PyErr
deriving DecidableEq

/-- Parse events pushed by the SAX driver, in document order. -/
inductive Event where
  | start : String → AttrMap → Event
  | endTag : String → Event
  | chars : String → Event

/-- State of `JUnitXMLHandler`: the instance attributes set in `__init__`
(lines 19-58).  `nonpassing_tests` models the `defaultdict(list)` as a total
function with default `[]`; `show_text` keeps the `defaultdict(list)` as an
insertion-ordered association list because `report` iterates it;
`total_time_sec` keeps the raw text of the `time` attribute (the float value
itself is never computed with, only re-rendered); `stderr_lines` collects
the warning prints sent to stderr during parsing. -/
structure JUnitState where
  show_ : Option String
  junitxml : String
  strip_pref : String
  add_pref : String
  report_passing : Bool
  report_errors : Bool
  report_skips : Bool
  cur_tag : String
  testcase_level : Int
  cur_test : Option String
  cur_status : Option String
  passing_tests : List (Option String)
  nonpassing_tests : String → List (Option String)
  unhandled_tags : List String
  expected_num_errors : Option Int
  expected_num_failures : Option Int
  expected_num_skips : Option Int
  expected_num_tests : Option Int
  total_time_sec : Option String
  num_testcases : Nat
  num_errors : Nat
  num_failures : Nat
  num_skips : Nat
  show_attrs : List (String × String)
  show_text : List (String × List String)
  stderr_lines : List String

/-- Initial handler state (lines 38-58).  The configured strip/add path
fixes are taken already resolved, as `__init__` leaves them after its
`--add-prefix` defaulting logic. -/
def mkState (show_ : Option String) (junitxml strip_pref add_pref : String)
    (rp re rs : Bool) : JUnitState :=
  { show_ := show_, junitxml := junitxml, strip_pref := strip_pref,
    add_pref := add_pref, report_passing := rp, report_errors := re,
    report_skips := rs, cur_tag := "", testcase_level := 0, cur_test := none,
    cur_status := none, passing_tests := [], nonpassing_tests := fun _ => [],
    unhandled_tags := [], expected_num_errors := none,
    expected_num_failures := none, expected_num_skips := none,
    expected_num_tests := none, total_time_sec := none, num_testcases := 0,
    num_errors := 0, num_failures := 0, num_skips := 0, show_attrs := [],
    show_text := [], stderr_lines := [] }

/-- Embeds `_pytest_fullname` (lines 81-126): reconstruct the pytest node
identifier from the `classname` and `name` attributes.  The method receives
only these two values; the decision whether the last `classname` component
is a class uses the `startswith("Test")` convention (lines 110-118). -/
def pytest_fullname (strip_pref add_pref : String) (test_class : Option String)
    (test_name : String) : String :=
  let test_module_parts :=
    match test_class with
    | some tc => (pySplitDot tc).dropLast
    | none => []
  let test_class_name :=
    match test_class with
    | some tc => (pySplitDot tc).getLastD ""
    | none => ""
  let test_module_parts2 :=
    if test_class_name ≠ "" ∧ ¬ pyStartsWith test_class_name "Test" then
      test_module_parts ++ [test_class_name]
    else test_module_parts
  let test_class_name2 :=
    if test_class_name ≠ "" ∧ ¬ pyStartsWith test_class_name "Test" then ""
    else test_class_name
  let path0 := String.intercalate "/" test_module_parts2 ++ ".py"
  let path1 :=
    if strip_pref ≠ "" ∧ pyStartsWith path0 strip_pref then
      pyDropStr path0 strip_pref.length
    else path0
  let path2 := add_pref ++ path1
  if test_class_name2 ≠ "" then path2 ++ "::" ++ test_class_name2 ++ "::" ++ test_name
  else path2 ++ "::" ++ test_name

/-- Models `int(attrs[key])`: `KeyError` when the attribute is absent,
`ValueError` when it is not an integer literal. -/
def pyIntItem (attrs : AttrMap) (key : String) : Except PyErr Int :=
  match pyGet attrs key with
  | none => .error (.keyError key)
  | some v =>
    match pyParseInt v with
    | none => .error (.valueError v)
    | some n => .ok n

/-- Digit test for the float model. -/
def isDigitCh (c : Char) : Bool :=
  if 48 ≤ c.toNat ∧ c.toNat ≤ 57 then true else false

/-- Consumes a leading digit run, returning its length and the rest. -/
def takeDigits : List Char → Nat × List Char
  | [] => (0, [])
  | c :: cs =>
    if isDigitCh c then
      let p := takeDigits cs
      (p.1 + 1, p.2)
    else (0, c :: cs)

/-- Mantissa of a float literal (`digits`, `digits.`, `digits.digits`, or
`.digits`); returns the unconsumed rest on success. -/
def floatMantissa (cs : List Char) : Option (List Char) :=
  let p1 := takeDigits cs
  match p1.2 with
  | '.' :: r2 =>
    let p2 := takeDigits r2
    if p1.1 + p2.1 ≥ 1 then some p2.2 else none
  | r1 => if p1.1 ≥ 1 then some r1 else none

/-- Optional exponent of a float literal; it must consume everything that
remains after the mantissa. -/
def floatExpo : List Char → Bool
  | [] => true
  | c :: r =>
    if c = 'e' ∨ c = 'E' then
      let r2 :=
        match r with
        | '+' :: t => t
        | '-' :: t => t
        | t => t
      let p := takeDigits r2
      if p.1 ≥ 1 then p.2.isEmpty else false
    else false

/-- Models the success test of Python `float(s)` on canonical decimal and
exponent literals: surrounding whitespace stripped, optional sign, digits
with an optional point, optional exponent.  Special forms (`inf`, `nan`,
underscore separators) are outside the inputs of this development. -/
def pyFloatCheck (s : String) : Bool :=
  let cs := ((s.data.dropWhile pyIsWs).reverse.dropWhile pyIsWs).reverse
  let cs2 :=
    match cs with
    | '-' :: r => r
    | '+' :: r => r
    | r => r
  match floatMantissa cs2 with
  | none => false
  | some rest => floatExpo rest

/-- Models `float(attrs[key])`: `KeyError` when the attribute is absent,
`ValueError` when its value is not a float literal.  On success the source
text of the value is kept, since the handler only ever re-renders it. -/
def pyFloatItem (attrs : AttrMap) (key : String) : Except PyErr String :=
  match pyGet attrs key with
  | none => .error (.keyError key)
  | some v => if pyFloatCheck v then .ok v else .error (.valueError v)

/-- Embeds lines 142-146: the expected skip count is read from `skips`, or
from `skipped` when `skips` is absent; `attrs["skipped"]` raises `KeyError`
when both are missing. -/
def skipsItem (attrs : AttrMap) : Except PyErr Int :=
  match pyGet attrs "skips" with
  | some v =>
    (match pyParseInt v with
     | none => Except.error (.valueError v)
     | some n => Except.ok n)
  | none =>
    match pyGet attrs "skipped" with
    | none => .error (.keyError "skipped")
    | some v =>
      match pyParseInt v with
      | none => .error (.valueError v)
      | some n => .ok n

/-- Embeds `_start_testsuite` (lines 131-146).  A suite name other than
`"pytest"` only prints a warning to stderr; the numeric header attributes are
read in source order (`errors`, `failures`, `tests`, `time`, then the
skip count), so the first missing or malformed one aborts the parse. -/
def start_testsuite (s : JUnitState) (attrs : AttrMap) : Except PyErr JUnitState :=
  let nm := pyGet attrs "name"
  let s1 :=
    if nm = some "pytest" then s
    else { s with stderr_lines := s.stderr_lines ++
      ["WARNING: Testsuite has name " ++ pyRepr nm ++ " instead of expected \"pytest\""] }
  match pyIntItem attrs "errors" with
  | .error e => .error e
  | .ok errs =>
  match pyIntItem attrs "failures" with
  | .error e => .error e
  | .ok fails =>
  match pyIntItem attrs "tests" with
  | .error e => .error e
  | .ok tests =>
  match pyFloatItem attrs "time" with
  | .error e => .error e
  | .ok tm =>
  match skipsItem attrs with
  | .error e => .error e
  | .ok skips =>
    .ok { s1 with expected_num_errors := some errs,
                  expected_num_failures := some fails,
                  expected_num_tests := some tests,
                  total_time_sec := some tm,
                  expected_num_skips := some skips }

/-- Insertion sort comparator: Python `<` on strings (lexicographic by code
point). -/
def charLt : List Char → List Char → Bool
  | _, [] => false
  | [], _ :: _ => true
  | a :: as, b :: bs => if a = b then charLt as bs else decide (a.toNat < b.toNat)

/-- Helper for `pySorted`. -/
def insortStr (x : String) : List String → List String
  | [] => [x]
  | y :: ys => if charLt y.data x.data then y :: insortStr x ys else x :: y :: ys

/-- Models Python `sorted` on a list of strings (stable insertion sort with
the code-point order). -/
def pySorted (l : List String) : List String := l.foldr insortStr []

/-- Models `self.show_attrs[attr_name] = attrs[attr_name]` over
`sorted(attrs.keys())` (lines 160-162): dict update keeps the position of an
existing key and appends a new one. -/
def assocSet (l : List (String × String)) (k v : String) : List (String × String) :=
  match l with
  | [] => [(k, v)]
  | (k0, v0) :: rest => if k0 = k then (k0, v) :: rest else (k0, v0) :: assocSet rest k v

/-- Snapshot of all attributes of the shown testcase, in sorted key order. -/
def snapAttrs (sa : List (String × String)) (attrs : AttrMap) : List (String × String) :=
  (pySorted (attrs.map Prod.fst)).foldl
    (fun acc k => assocSet acc k ((pyGet attrs k).getD "")) sa

/-- Embeds `_start_testcase` (lines 148-162): bump the nesting level, assert
no nesting, count the testcase, reconstruct the identity when the `name`
attribute is present and nonempty (a missing `classname` would then raise
`KeyError`), and snapshot the attributes when this is the shown test. -/
def start_testcase (s : JUnitState) (attrs : AttrMap) : Except PyErr JUnitState :=
  let s1 := { s with testcase_level := s.testcase_level + 1 }
  if s1.testcase_level = (1 : Int) then
    let s2 := { s1 with num_testcases := s1.num_testcases + 1 }
    let test_name := pyGet attrs "name"
    let ct : Except PyErr (Option String) :=
      if pyTruthy test_name then
        match pyGet attrs "classname" with
        | none => .error (.keyError "classname")
        | some tc => .ok (some (pytest_fullname s2.strip_pref s2.add_pref (some tc) (test_name.getD "")))
      else .ok none
    match ct with
    | .error e => .error e
    | .ok cur =>
      let s3 := { s2 with cur_test := cur, cur_status := none }
      .ok (if s3.show_ = cur then { s3 with show_attrs := snapAttrs s3.show_attrs attrs } else s3)
  else .error .assertionError

/-- Embeds `_end_testcase` (lines 164-171): drop the nesting level and file
the current identity into the single bucket selected by the current status
(the passing list when no status child was seen). -/
def end_testcase (s : JUnitState) : JUnitState :=
  let s1 := { s with testcase_level := s.testcase_level - 1 }
  let s2 :=
    if pyTruthy s1.cur_status then
      { s1 with nonpassing_tests := fun st =>
          if st = s1.cur_status.getD "" then s1.nonpassing_tests st ++ [s1.cur_test]
          else s1.nonpassing_tests st }
    else { s1 with passing_tests := s1.passing_tests ++ [s1.cur_test] }
  { s2 with cur_test := none, cur_status := none }

/-- Embeds `_start_error` (lines 173-176): assert we are inside a testcase,
count the error and set the current status (a later status child simply
overwrites it). -/
def start_error (s : JUnitState) : Except PyErr JUnitState :=
  if s.testcase_level = 1 then
    .ok { s with num_errors := s.num_errors + 1, cur_status := some "ERROR" }
  else .error .assertionError

/-- Embeds `_start_failure` (lines 178-181). -/
def start_failure (s : JUnitState) : Except PyErr JUnitState :=
  if s.testcase_level = 1 then
    .ok { s with num_failures := s.num_failures + 1, cur_status := some "FAIL" }
  else .error .assertionError

/-- Embeds `_start_skipped` (lines 183-186). -/
def start_skipped (s : JUnitState) : Except PyErr JUnitState :=
  if s.testcase_level = 1 then
    .ok { s with num_skips := s.num_skips + 1, cur_status := some "SKIP" }
  else .error .assertionError

/-- Embeds `_start_system_out` (lines 188-189): assertion only. -/
def start_system_out (s : JUnitState) : Except PyErr JUnitState :=
  if s.testcase_level = 1 then .ok s else .error .assertionError

/-- Embeds `_start_system_err` (lines 191-192): assertion only. -/
def start_system_err (s : JUnitState) : Except PyErr JUnitState :=
  if s.testcase_level = 1 then .ok s else .error .assertionError

/-- Records an element name in the unhandled-tag set (line 67). -/
def addUnhandled (l : List String) (n : String) : List String :=
  if l.contains n then l else l ++ [n]

/-- Embeds `startElement` (lines 60-67): remember the tag, dispatch on the
method name `_start_` + `name.replace("-", "_")`, falling through to the
unhandled-tag set. -/
def startElement (s0 : JUnitState) (name : String) (attrs : AttrMap) :
    Except PyErr JUnitState :=
  let s := { s0 with cur_tag := name }
  let key := pyKey name
  if key = "testsuites" then .ok s
  else if key = "testsuite" then start_testsuite s attrs
  else if key = "testcase" then start_testcase s attrs
  else if key = "error" then start_error s
  else if key = "failure" then start_failure s
  else if key = "skipped" then start_skipped s
  else if key = "system_out" then start_system_out s
  else if key = "system_err" then start_system_err s
  else .ok { s with unhandled_tags := addUnhandled s.unhandled_tags name }

/-- Embeds `endElement` (lines 69-73).  Line 70 computes the method name
with `name.replace("-", "-")`, which is the identity, so only the literal
tag `testcase` resolves to an existing `_end_` method. -/
def endElement (s : JUnitState) (name : String) : JUnitState :=
  if name = "testcase" then end_testcase s else s

/-- Appends a text chunk under the current tag, keeping insertion order of
keys as `defaultdict(list)` does. -/
def addChunk (l : List (String × List String)) (k v : String) :
    List (String × List String) :=
  match l with
  | [] => [(k, [v])]
  | (k0, vs) :: rest =>
    if k0 = k then (k0, vs ++ [v]) :: rest else (k0, vs) :: addChunk rest k v

/-- Embeds `characters` (lines 75-79): text is kept only inside a testcase,
not directly on the `testcase` tag, only when nonempty, and only when the
current test is the one selected with `--show` (note `None == None` holds,
exactly as in Python). -/
def charactersEv (s : JUnitState) (content : String) : JUnitState :=
  if s.testcase_level ≠ 1 ∨ s.cur_tag = "testcase" ∨ content = "" then s
  else if s.show_ = s.cur_test then
    { s with show_text := addChunk s.show_text s.cur_tag content }
  else s

/-- One SAX callback of the handler. -/
def step (s : JUnitState) : Event → Except PyErr JUnitState
  | .start name attrs => startElement s name attrs
  | .endTag name => .ok (endElement s name)
  | .chars content => .ok (charactersEv s content)

/-- Runs the handler over a whole event stream; the first uncaught Python
exception aborts the parse, as `xml.sax.parse` propagates it. -/
def run (s : JUnitState) : List Event → Except PyErr JUnitState
  | [] => .ok s
  | e :: es =>
    match step s e with
    | .error err => .error err
    | .ok s1 => run s1 es

/-- Renders an optional string the way a Python f-string renders the value:
`None` for the absent case. -/
def pyOptStr : Option String → String
  | none => "None"
  | some str => str

/-- Renders an optional integer the way a Python f-string renders it. -/
def pyOptIntStr : Option Int → String
  | none => "None"
  | some n => toString n

/-- Models Python `sorted` over a bucket that may hold `None` identities:
with at most one element no comparison happens; otherwise comparing `None`
with anything raises `TypeError`. -/
def pySortedOpt (l : List (Option String)) : Except PyErr (List (Option String)) :=
  if l.length ≤ 1 then .ok l
  else if l.all (fun o => o.isSome) then .ok ((pySorted (l.filterMap id)).map some)
  else .error .typeError

/-- Python `repr` of a plain string for the list rendering of
`print("Unhandled tags:", sorted(...))` (quote-free strings only). -/
def pyReprS (str : String) : String := sqChar ++ str ++ sqChar

/-- Renders one optional bucket section of the report (lines 223-241): a
blank line, the count headline, then the sorted identities.  The headline is
produced before `sorted` runs in the source; on a `TypeError` from `sorted`
Python would abort after printing it, which this model folds into one failed
result since no claim observes the partial output. -/
def bucketSection (flag : Bool) (title : String) (l : List (Option String)) :
    Except PyErr (List String) :=
  if flag then
    match pySortedOpt l with
    | .error e => .error e
    | .ok sl => .ok ("" :: (toString l.length ++ title) :: sl.map pyOptStr)
  else .ok []

/-- Embeds `report` (lines 194-241) as the list of stdout lines it prints.
In show mode the detail view renders attributes and concatenated text
chunks; otherwise the aggregate summary adds the expected error and failure
counts (`None` there raises `TypeError`, as `None + int` does in Python) and
formats the remaining header fields, which may render as `None`.  The
common tail renders the unhandled-tag set and the requested bucket lists. -/
def report (s : JUnitState) : Except PyErr (List String) :=
  let headE : Except PyErr (List String) :=
    if pyTruthy s.show_ then
      .ok (("Details for test: " ++ pyOptStr s.show_) ::
        (s.show_attrs.map (fun kv => "  " ++ kv.1 ++ ": " ++ kv.2) ++
         (s.show_text.map (fun kv => [kv.1 ++ ":", String.join kv.2])).flatten))
    else
      match s.expected_num_errors, s.expected_num_failures with
      | some e, some f =>
        .ok ["Report on JUnit XML file " ++ s.junitxml ++ ":",
             "Stats from the <testsuites> tag:",
             toString (e + f) ++ " errors (errors + failures)",
             pyOptIntStr s.expected_num_skips ++ " skips (skips + xfails)",
             pyOptIntStr s.expected_num_tests ++ " tests total.",
             "",
             "Stats from the body of the report:",
             "Number of errors: " ++ toString (s.num_errors + s.num_failures) ++
               " (errors + failures)",
             "Number of skips (skips + xfails): " ++ toString s.num_skips,
             "Number of <testcase> tags: " ++ toString s.num_testcases,
             "",
             "Total test suite run time: " ++ pyOptStr s.total_time_sec ++ " seconds"]
      | _, _ => .error .typeError
  match headE with
  | .error e => .error e
  | .ok head =>
    let head2 := head ++
      (if s.unhandled_tags = [] then []
       else ["", "Unhandled tags: [" ++
             String.intercalate ", " ((pySorted s.unhandled_tags).map pyReprS) ++ "]"])
    match bucketSection s.report_passing " passing tests:" s.passing_tests with
    | .error e => .error e
    | .ok passSec =>
    match bucketSection s.report_skips " tests with status SKIP:"
        (s.nonpassing_tests "SKIP") with
    | .error e => .error e
    | .ok skipSec =>
    match bucketSection s.report_errors " tests with status ERROR or FAIL:"
        (s.nonpassing_tests "ERROR" ++ s.nonpassing_tests "FAIL") with
    | .error e => .error e
    | .ok errSec => .ok (head2 ++ passSec ++ skipSec ++ errSec)

/-- Strips the filename extension for the spec's file heuristic: everything
after the last dot is removed (the whole path is kept when it has no dot). -/
def dropExt (f : String) : String :=
  if (pySplitDot f).length ≤ 1 then f
  else String.intercalate "." ((pySplitDot f).dropLast)

/-- Modelled from the spec (section 4.2, step 2), for comparison with the
source's `pytest_fullname`: identity reconstruction that consults the
optional `file` attribute.  When `file` is present, the module path derived
from `file` (extension stripped, split on the path separator) is compared
with the module-path-plus-candidate derived from `classname`; on a match the
candidate is dropped as a class name.  Only when `file` is absent does the
`Test` name-prefix convention decide.  Step 4's prefix-add carries the
spec's guard against double-prepending. -/
def spec_fullname (strip_pref add_pref : String) (test_class : Option String)
    (file : Option String) (test_name : String) : String :=
  let parts :=
    match test_class with
    | some tc => (pySplitDot tc).dropLast
    | none => []
  let cand :=
    match test_class with
    | some tc => (pySplitDot tc).getLastD ""
    | none => ""
  let candIsClass : Bool :=
    match file with
    | some f => ! (decide (pySplitChar '/' (dropExt f) = parts ++ [cand]))
    | none => pyStartsWith cand "Test"
  let parts2 := if cand ≠ "" ∧ ¬ candIsClass then parts ++ [cand] else parts
  let cls := if cand ≠ "" ∧ ¬ candIsClass then "" else cand
  let path0 := String.intercalate "/" parts2 ++ ".py"
  let path1 :=
    if strip_pref ≠ "" ∧ pyStartsWith path0 strip_pref then
      pyDropStr path0 strip_pref.length
    else path0
  let path2 := if pyStartsWith path1 add_pref then path1 else add_pref ++ path1
  if cls ≠ "" then path2 ++ "::" ++ cls ++ "::" ++ test_name
  else path2 ++ "::" ++ test_name

/-- Tests whether an event is a `<testcase>` start event, with the same
dispatch key normalization `startElement` itself applies. -/
def isTcStart : Event → Bool
  | .start name _ => decide (pyKey name = "testcase")
  | _ => false

/-- The three status children a `<testcase>` can carry. -/
inductive ChildKind where
  | errK
  | failK
  | skipK

/-- Element name of a status child. -/
def childTag : ChildKind → String
  | .errK => "error"
  | .failK => "failure"
  | .skipK => "skipped"

/-- Status label the corresponding `_start_*` handler stores. -/
def childLabel : ChildKind → String
  | .errK => "ERROR"
  | .failK => "FAIL"
  | .skipK => "SKIP"

/-- Start event of a status child (these elements carry attributes the
handlers ignore, so the empty attribute list is representative). -/
def childEvent (k : ChildKind) : Event := .start (childTag k) []

/-- State after one status-child start event inside a testcase: tag
remembered, one counter bumped, status overwritten. -/
def childNext (s : JUnitState) : ChildKind → JUnitState
  | .errK =>
    { s with cur_tag := "error", num_errors := s.num_errors + 1, cur_status := some "ERROR" }
  | .failK =>
    { s with cur_tag := "failure", num_failures := s.num_failures + 1, cur_status := some "FAIL" }
  | .skipK =>
    { s with cur_tag := "skipped", num_skips := s.num_skips + 1, cur_status := some "SKIP" }

/-- Last element of a child list, `none` when empty. -/
def lastChild : List ChildKind → Option ChildKind
  | [] => none
  | [k] => some k
  | _ :: k2 :: ks => lastChild (k2 :: ks)

/-- Helper for `strContains`: tries to match the needle at every suffix. -/
def strContainsAux (needle : List Char) : List Char → Bool
  | [] => charPre needle []
  | c :: cs => if charPre needle (c :: cs) then true else strContainsAux needle cs

/-- Substring test (used to scan report lines for warning markers). -/
def strContains (hay needle : String) : Bool := strContainsAux needle.data hay.data

/-- Discriminates a successful parse result (used by concrete witnesses). -/
def isOkE : Except PyErr JUnitState → Bool
  | .ok _ => true
  | .error _ => false

/-- Concrete reachable state inside a testcase: the handler right after a
well-formed `<testcase>` start event, with default CLI configuration. -/
def insideState : JUnitState :=
  { mkState none "junit.xml" "/code/" "" false false false with
    testcase_level := 1, cur_test := some "tests/test_mod.py::TestFoo::test_bar" }

/-- Concrete initial state with default CLI configuration. -/
def outsideState : JUnitState := mkState none "junit.xml" "/code/" "" false false false

/-- Initial state for the counting witness. -/
def c2St : JUnitState := mkState none "junit.xml" "/code/" "" false false false

/-- Witness event stream: a well-formed testcase followed by a mangled one
(no `name`) with a failure child, plus text and header events. -/
def c2Ev : List Event :=
  [Event.start "testsuites" [],
   Event.start "testsuite"
     [("name", "pytest"), ("errors", "0"), ("failures", "1"), ("tests", "2"),
      ("time", "0.5"), ("skips", "0")],
   Event.start "testcase" [("classname", "tests.test_mod.TestFoo"), ("name", "test_bar")],
   Event.chars "x",
   Event.endTag "testcase",
   Event.start "testcase" [],
   Event.start "failure" [("message", "boom")],
   Event.endTag "testcase"]

/-- Testsuite header with every numeric attribute except the skip count. -/
def c7Attrs : AttrMap :=
  [("name", "pytest"), ("errors", "1"), ("failures", "2"), ("tests", "3"), ("time", "4.5")]

/-- Testcase attributes with no `name` key (a truncated element). -/
def c8Attrs : AttrMap := [("classname", "tests.test_mod.TestFoo"), ("time", "0.01")]

/-- Initial state for the truncated-document scenario. -/
def c9Init : JUnitState := mkState none "junit.xml" "/code/" "" false false false

/-- Event stream that ends while still inside a `<testcase>` element. -/
def c9Events : List Event :=
  [Event.start "testsuites" [],
   Event.start "testsuite"
     [("name", "pytest"), ("errors", "0"), ("failures", "0"), ("tests", "1"),
      ("time", "0.5"), ("skips", "0")],
   Event.start "testcase" [("classname", "tests.test_mod.TestFoo"), ("name", "test_bar")]]

/-- Final handler state of the truncated run. -/
def c9Final : Except PyErr JUnitState := run c9Init c9Events

/-- The complete stdout of `report` for the truncated run. -/
def c9Lines : List String :=
  ["Report on JUnit XML file junit.xml:",
   "Stats from the <testsuites> tag:",
   "0 errors (errors + failures)",
   "0 skips (skips + xfails)",
   "1 tests total.",
   "",
   "Stats from the body of the report:",
   "Number of errors: 0 (errors + failures)",
   "Number of skips (skips + xfails): 0",
   "Number of <testcase> tags: 1",
   "",
   "Total test suite run time: 0.5 seconds"]

/-- Status-child start events succeed inside a testcase and only remember
the tag, bump one counter and overwrite the current status. -/
lemma step_child (s : JUnitState) (k : ChildKind) (h : s.testcase_level = 1) :
    step s (childEvent k) = .ok (childNext s k) := by
  cases k <;>
    simp [childEvent, childTag, step, startElement, pyKey, start_error, start_failure,
      start_skipped, childNext, h]

/-- The `</testcase>` event always succeeds and applies `end_testcase`. -/
lemma step_end (s : JUnitState) : step s (.endTag "testcase") = .ok (end_testcase s) := rfl

/-- With no status set, `end_testcase` appends to the passing list only. -/
lemma end_passing (s : JUnitState) (h : s.cur_status = none) :
    (end_testcase s).passing_tests = s.passing_tests ++ [s.cur_test] ∧
    (end_testcase s).nonpassing_tests = s.nonpassing_tests := by
  simp [end_testcase, pyTruthy, h]

/-- With a nonempty status set, `end_testcase` appends to that bucket only
and leaves the passing list and every other bucket unchanged. -/
lemma end_nonpassing (s : JUnitState) (st : String) (h : s.cur_status = some st)
    (hne : st ≠ "") :
    (end_testcase s).passing_tests = s.passing_tests ∧
    (end_testcase s).nonpassing_tests st = s.nonpassing_tests st ++ [s.cur_test] ∧
    ∀ lbl, lbl ≠ st → (end_testcase s).nonpassing_tests lbl = s.nonpassing_tests lbl := by
  refine ⟨?_, ?_, ?_⟩
  · simp [end_testcase, pyTruthy, h, hne]
  · simp [end_testcase, pyTruthy, h, hne]
  · intro lbl hlbl
    simp [end_testcase, pyTruthy, h, hne, hlbl]

/-- Running a concatenation of event streams runs them in sequence. -/
lemma run_append (es1 : List Event) : ∀ (s : JUnitState) (es2 : List Event),
    run s (es1 ++ es2) =
      match run s es1 with
      | .ok s1 => run s1 es2
      | .error e => .error e := by
  induction es1 with
  | nil => intro s es2; rfl
  | cons e es ih =>
    intro s es2
    simp only [List.cons_append, run]
    cases step s e <;> simp [ih]

/-- The overwrite fold over status children keeps exactly the last label. -/
lemma foldl_lastChild (ks : List ChildKind) : ∀ (init : Option String),
    ks.foldl (fun _ k => some (childLabel k)) init =
      match lastChild ks with
      | some k => some (childLabel k)
      | none => init := by
  induction ks with
  | nil => intro init; rfl
  | cons k ks ih =>
    intro init
    cases ks with
    | nil => rfl
    | cons k2 ks2 =>
      simp only [List.foldl, lastChild]
      exact ih _

/-- Running any run of status children inside a testcase succeeds, leaves
the buckets and the current identity untouched, and leaves the status of the
last child seen. -/
lemma run_children (children : List ChildKind) : ∀ (s : JUnitState),
    s.testcase_level = 1 →
    ∃ s1, run s (children.map childEvent) = .ok s1 ∧
      s1.testcase_level = 1 ∧ s1.cur_test = s.cur_test ∧
      s1.passing_tests = s.passing_tests ∧
      s1.nonpassing_tests = s.nonpassing_tests ∧
      s1.cur_status = children.foldl (fun _ k => some (childLabel k)) s.cur_status := by
  induction children with
  | nil => intro s h; exact ⟨s, rfl, h, rfl, rfl, rfl, rfl⟩
  | cons k ks ih =>
    intro s h
    have hs := step_child s k h
    have hlvl : (childNext s k).testcase_level = 1 := by cases k <;> simpa using h
    obtain ⟨s1, hrun, h1, h2, h3, h4, h5⟩ := ih (childNext s k) hlvl
    refine ⟨s1, ?_, h1, ?_, ?_, ?_, ?_⟩
    · simp only [List.map_cons, run, hs, hrun]
    · rw [h2]; cases k <;> rfl
    · rw [h3]; cases k <;> rfl
    · rw [h4]; cases k <;> rfl
    · rw [h5]
      have hcs : (childNext s k).cur_status = some (childLabel k) := by cases k <;> rfl
      rw [hcs]
      rfl

/-- A successful `_start_testsuite` leaves the testcase counter unchanged. -/
lemma start_testsuite_nt (s : JUnitState) (attrs : AttrMap) (s' : JUnitState)
    (h : start_testsuite s attrs = .ok s') : s'.num_testcases = s.num_testcases := by
  simp only [start_testsuite] at h
  repeat' split at h
  all_goals try exact Except.noConfusion h
  all_goals (injection h with h; subst h; rfl)

/-- A successful `_start_testcase` increments the counter by exactly one. -/
lemma start_testcase_nt (s : JUnitState) (attrs : AttrMap) (s' : JUnitState)
    (h : start_testcase s attrs = .ok s') : s'.num_testcases = s.num_testcases + 1 := by
  simp only [start_testcase] at h
  repeat' split at h
  all_goals try exact Except.noConfusion h
  all_goals (injection h with h; subst h; rfl)

/-- A successful `_start_error` leaves the testcase counter unchanged. -/
lemma start_error_nt (s : JUnitState) (s' : JUnitState)
    (h : start_error s = .ok s') : s'.num_testcases = s.num_testcases := by
  simp only [start_error] at h
  split at h
  · injection h with h; subst h; rfl
  · exact Except.noConfusion h

/-- A successful `_start_failure` leaves the testcase counter unchanged. -/
lemma start_failure_nt (s : JUnitState) (s' : JUnitState)
    (h : start_failure s = .ok s') : s'.num_testcases = s.num_testcases := by
  simp only [start_failure] at h
  split at h
  · injection h with h; subst h; rfl
  · exact Except.noConfusion h

/-- A successful `_start_skipped` leaves the testcase counter unchanged. -/
lemma start_skipped_nt (s : JUnitState) (s' : JUnitState)
    (h : start_skipped s = .ok s') : s'.num_testcases = s.num_testcases := by
  simp only [start_skipped] at h
  split at h
  · injection h with h; subst h; rfl
  · exact Except.noConfusion h

/-- A successful `_start_system_out` leaves the testcase counter unchanged. -/
lemma start_system_out_nt (s : JUnitState) (s' : JUnitState)
    (h : start_system_out s = .ok s') : s'.num_testcases = s.num_testcases := by
  simp only [start_system_out] at h
  split at h
  · injection h with h; subst h; rfl
  · exact Except.noConfusion h

/-- A successful `_start_system_err` leaves the testcase counter unchanged. -/
lemma start_system_err_nt (s : JUnitState) (s' : JUnitState)
    (h : start_system_err s = .ok s') : s'.num_testcases = s.num_testcases := by
  simp only [start_system_err] at h
  split at h
  · injection h with h; subst h; rfl
  · exact Except.noConfusion h

/-- Every successful step changes the testcase counter by exactly the number
of `<testcase>` start events it handles (one or zero). -/
lemma step_nt (s : JUnitState) (e : Event) (s' : JUnitState) (h : step s e = .ok s') :
    s'.num_testcases = s.num_testcases + (if isTcStart e then 1 else 0) := by
  cases e with
  | start name attrs =>
    simp only [step, startElement] at h
    simp only [isTcStart]
    repeat' split at h
    all_goals first
      | (injection h with h; subst h; simp_all)
      | (have hnt := start_testsuite_nt _ _ _ h; simp_all)
      | (have hnt := start_testcase_nt _ _ _ h; simp_all)
      | (have hnt := start_error_nt _ _ h; simp_all)
      | (have hnt := start_failure_nt _ _ h; simp_all)
      | (have hnt := start_skipped_nt _ _ h; simp_all)
      | (have hnt := start_system_out_nt _ _ h; simp_all)
      | (have hnt := start_system_err_nt _ _ h; simp_all)
  | endTag name =>
    injection h with h
    subst h
    unfold endElement end_testcase
    simp only [isTcStart]
    split
    · split <;> rfl
    · rfl
  | chars content =>
    injection h with h
    subst h
    unfold charactersEv
    simp only [isTcStart]
    split
    · rfl
    · split <;> rfl

/-- String append with the empty string on the left is the identity. -/
lemma str_nil_append (a : String) : "" ++ a = a := rfl

/-- The start handler records a `<testcase>` element whose `name` attribute
is missing without raising: counter bumped, identity and status cleared,
nesting entered, buckets untouched. -/
lemma start_testcase_noname (s : JUnitState) (attrs : AttrMap)
    (h : s.testcase_level = 0) (hn : pyGet attrs "name" = none) :
    ∃ s1, start_testcase s attrs = .ok s1 ∧
      s1.num_testcases = s.num_testcases + 1 ∧ s1.cur_test = none ∧
      s1.cur_status = none ∧ s1.testcase_level = 1 ∧
      s1.passing_tests = s.passing_tests ∧ s1.nonpassing_tests = s.nonpassing_tests := by
  simp only [start_testcase, h, hn, pyTruthy]
  norm_num
  split
  · exact ⟨rfl, rfl, rfl, by norm_num, rfl, rfl⟩
  · exact ⟨rfl, rfl, rfl, by norm_num, rfl, rfl⟩

/-- Claim C1: when the testcase end event is handled, exactly one bucket
receives the testcase identity: the passing list when no
`<error>`/`<failure>`/`<skipped>` child was seen, and otherwise only the
bucket of the last such child (last one wins); processing any number of
status children raises no error. -/
theorem c1_end_testcase_one_bucket (s : JUnitState) (children : List ChildKind)
    (h1 : s.testcase_level = 1) (h2 : s.cur_status = none) :
    ∃ s2, run s (children.map childEvent ++ [Event.endTag "testcase"]) = .ok s2 ∧
      (match lastChild children with
       | none =>
         s2.passing_tests = s.passing_tests ++ [s.cur_test] ∧
         s2.nonpassing_tests = s.nonpassing_tests
       | some k =>
         s2.passing_tests = s.passing_tests ∧
         s2.nonpassing_tests (childLabel k) =
           s.nonpassing_tests (childLabel k) ++ [s.cur_test] ∧
         ∀ lbl, lbl ≠ childLabel k →
           s2.nonpassing_tests lbl = s.nonpassing_tests lbl) := by
  obtain ⟨s1, hrun, hl, hct, hp, hnp, hcs⟩ := run_children children s h1
  rw [foldl_lastChild, h2] at hcs
  refine ⟨end_testcase s1, ?_, ?_⟩
  · rw [run_append, hrun]
    simp [run, step_end]
  · cases hlast : lastChild children with
    | none =>
      rw [hlast] at hcs
      obtain ⟨e1, e2⟩ := end_passing s1 hcs
      exact ⟨by rw [e1, hp, hct], by rw [e2, hnp]⟩
    | some k =>
      rw [hlast] at hcs
      have hne : childLabel k ≠ "" := by cases k <;> simp [childLabel]
      obtain ⟨e1, e2, e3⟩ := end_nonpassing s1 (childLabel k) hcs hne
      refine ⟨by rw [e1, hp], ?_, ?_⟩
      · rw [e2, hct]
        rw [congrFun hnp (childLabel k)]
      · intro lbl hlbl
        rw [e3 lbl hlbl, congrFun hnp lbl]

/-- Witness for C1: inside a concrete testcase, an `<error>` child followed
by a `<skipped>` child files the identity into the SKIP bucket only. -/
theorem c1_witness :
    insideState.testcase_level = 1 ∧ insideState.cur_status = none ∧
    (∃ s2, run insideState
        ([ChildKind.errK, ChildKind.skipK].map childEvent ++ [Event.endTag "testcase"]) =
        .ok s2 ∧
      (match lastChild [ChildKind.errK, ChildKind.skipK] with
       | none =>
         s2.passing_tests = insideState.passing_tests ++ [insideState.cur_test] ∧
         s2.nonpassing_tests = insideState.nonpassing_tests
       | some k =>
         s2.passing_tests = insideState.passing_tests ∧
         s2.nonpassing_tests (childLabel k) =
           insideState.nonpassing_tests (childLabel k) ++ [insideState.cur_test] ∧
         ∀ lbl, lbl ≠ childLabel k →
           s2.nonpassing_tests lbl = insideState.nonpassing_tests lbl)) :=
  ⟨rfl, rfl, c1_end_testcase_one_bucket insideState [ChildKind.errK, ChildKind.skipK] rfl rfl⟩

/-- Claim C2: for every event stream the parse completes on, the observed
testcase counter grew by exactly the number of `<testcase>` start events in
the stream, malformed or not. -/
theorem c2_testcase_counter (es : List Event) : ∀ (s s' : JUnitState),
    run s es = .ok s' → s'.num_testcases = s.num_testcases + es.countP isTcStart := by
  induction es with
  | nil =>
    intro s s' h
    injection h with h
    subst h
    simp
  | cons e es ih =>
    intro s s' h
    unfold run at h
    cases hstep : step s e with
    | error err => rw [hstep] at h; exact absurd h (by simp)
    | ok s1 =>
      rw [hstep] at h
      have h1 := ih s1 s' h
      have h2 := step_nt s e s1 hstep
      rw [List.countP_cons]
      cases hc : isTcStart e <;> simp [hc] at h2 ⊢ <;> omega

/-- Witness for C2: a concrete stream with one well-formed and one mangled
testcase ends with the counter at two. -/
theorem c2_witness :
    ∃ s', run c2St c2Ev = Except.ok s' ∧
      s'.num_testcases = c2St.num_testcases + c2Ev.countP isTcStart := by
  cases hr : run c2St c2Ev with
  | error e =>
    have hok : isOkE (run c2St c2Ev) = true := rfl
    rw [hr] at hok
    exact absurd hok (by simp [isOkE])
  | ok s' => exact ⟨s', rfl, c2_testcase_counter c2Ev c2St s' hr⟩

/-- Claim C3: a `<testcase>` start event arriving while already inside a
testcase aborts the parse with the nesting-invariant assertion error. -/
theorem c3_nested_testcase_aborts (s : JUnitState) (attrs : AttrMap)
    (h : s.testcase_level = 1) :
    step s (.start "testcase" attrs) = .error .assertionError := by
  simp [step, startElement, pyKey, start_testcase, h]

/-- Witness for C3 at a concrete inside-a-testcase state. -/
theorem c3_witness :
    insideState.testcase_level = 1 ∧
    step insideState (.start "testcase" [("name", "t")]) = .error .assertionError :=
  ⟨rfl, c3_nested_testcase_aborts insideState [("name", "t")] rfl⟩

/-- Claim C4: with both configured path fixes empty,
`classname="tests.test_mod.TestFoo"` and `name="test_bar"` (no `file`
attribute) reconstruct exactly `tests/test_mod.py::TestFoo::test_bar`, both
through `_pytest_fullname` directly and through the testcase start event. -/
theorem c4_roundtrip_no_file :
    pytest_fullname "" "" (some "tests.test_mod.TestFoo") "test_bar" =
      "tests/test_mod.py::TestFoo::test_bar" ∧
    (step (mkState none "junit.xml" "" "" false false false)
        (.start "testcase" [("classname", "tests.test_mod.TestFoo"), ("name", "test_bar")])).map
        (fun s => s.cur_test) =
      .ok (some "tests/test_mod.py::TestFoo::test_bar") := ⟨rfl, rfl⟩

/-- Counterexample for C5: on `classname="tests.TestMod"`, `name="test_x"`,
`file="tests/TestMod.py"` the module path from `file` matches the
module-path-plus-candidate, so the claimed file heuristic drops the class
and yields `tests/TestMod.py::test_x`; the interpreter instead keeps
`TestMod` as a class and produces `tests.py::TestMod::test_x`. -/
theorem c5_counterexample :
    (step (mkState none "junit.xml" "" "" false false false)
        (.start "testcase"
          [("classname", "tests.TestMod"), ("name", "test_x"), ("file", "tests/TestMod.py")])).map
        (fun s => s.cur_test) = .ok (some "tests.py::TestMod::test_x") ∧
    spec_fullname "" "" (some "tests.TestMod") (some "tests/TestMod.py") "test_x" =
      "tests/TestMod.py::test_x" ∧
    ("tests.py::TestMod::test_x" : String) ≠ "tests/TestMod.py::test_x" :=
  ⟨rfl, rfl, by decide⟩

/-- Claim C5 as amended: identity reconstruction never reads the `file`
attribute; module-vs-class is decided solely by the `Test` name-prefix
convention.  In particular, on the spec example `classname="tests.test_mod"`,
`name="test_func"` the identity is `tests/test_mod.py::test_func` for every
value of the `file` attribute. -/
theorem c5_file_attr_ignored (fv : String) :
    (step (mkState none "junit.xml" "" "" false false false)
        (.start "testcase"
          [("classname", "tests.test_mod"), ("name", "test_func"), ("file", fv)])).map
        (fun s => s.cur_test) = .ok (some "tests/test_mod.py::test_func") := rfl

/-- Counterexample for C6: with the add-prefix `tests/` configured, the
reconstructed path `tests/test_mod.py` already starts with it, yet the
prefix is prepended again, giving `tests/tests/test_mod.py::...`. -/
theorem c6_counterexample :
    pyStartsWith "tests/test_mod.py" "tests/" = true ∧
    pytest_fullname "" "tests/" (some "tests.test_mod.TestFoo") "test_bar" =
      "tests/tests/test_mod.py::TestFoo::test_bar" ∧
    ("tests/tests/test_mod.py::TestFoo::test_bar" : String) ≠
      "tests/test_mod.py::TestFoo::test_bar" :=
  ⟨rfl, rfl, by decide⟩

/-- Claim C6 as amended: after the optional strip, the configured add-prefix
is prepended unconditionally — there is no guard against double-prepending,
so the result is always the add-prefix glued onto the identity computed with
an empty add-prefix. -/
theorem c6_add_pref_unconditional (strip_pref add_pref : String)
    (test_class : Option String) (test_name : String) :
    pytest_fullname strip_pref add_pref test_class test_name =
      add_pref ++ pytest_fullname strip_pref "" test_class test_name := by
  simp only [pytest_fullname]
  repeat' split
  all_goals simp [str_nil_append, String.append_assoc]

/-- Counterexample for C7: a `<testsuite>` start event whose attributes
carry `errors`, `failures`, `tests` and `time` but neither `skips` nor
`skipped` makes the parse abort with `KeyError` instead of completing. -/
theorem c7_counterexample :
    step (mkState none "junit.xml" "/code/" "" false false false)
      (.start "testsuite"
        [("name", "pytest"), ("errors", "0"), ("failures", "0"), ("tests", "0"),
         ("time", "0.1")]) =
      .error (.keyError "skipped") := rfl

/-- Claim C7 as amended: when both `skips` and `skipped` are missing from an
otherwise well-formed `<testsuite>` header — `errors`, `failures` and
`tests` present and integer-valued, `time` present and float-valued — the
parse aborts with `KeyError` for `skipped`; nothing is reported. -/
theorem c7_missing_skip_attrs_abort (s : JUnitState) (attrs : AttrMap)
    (e1 : Int) (he : pyIntItem attrs "errors" = .ok e1)
    (f1 : Int) (hf : pyIntItem attrs "failures" = .ok f1)
    (t1 : Int) (ht : pyIntItem attrs "tests" = .ok t1)
    (tm : String) (htm : pyFloatItem attrs "time" = .ok tm)
    (hs1 : pyGet attrs "skips" = none) (hs2 : pyGet attrs "skipped" = none) :
    step s (.start "testsuite" attrs) = .error (.keyError "skipped") := by
  have hski : skipsItem attrs = .error (.keyError "skipped") := by
    simp [skipsItem, hs1, hs2]
  simp [step, startElement, pyKey, start_testsuite, he, hf, ht, htm, hski]

/-- Witness for C7 at a concrete header with all other attributes valid. -/
theorem c7_witness :
    pyIntItem c7Attrs "errors" = .ok 1 ∧ pyIntItem c7Attrs "failures" = .ok 2 ∧
    pyIntItem c7Attrs "tests" = .ok 3 ∧ pyFloatItem c7Attrs "time" = .ok "4.5" ∧
    pyGet c7Attrs "skips" = none ∧ pyGet c7Attrs "skipped" = none ∧
    step outsideState (.start "testsuite" c7Attrs) = .error (.keyError "skipped") :=
  ⟨rfl, rfl, rfl, rfl, rfl, rfl,
   c7_missing_skip_attrs_abort outsideState c7Attrs 1 rfl 2 rfl 3 rfl "4.5" rfl rfl rfl⟩

/-- Claim C8: a `<testcase>` start event without a `name` attribute raises
no error: the identity is recorded as absent, the counter still increments,
and the end event still files the absent identity into the passing list, or
into the bucket of a status child when one intervenes. -/
theorem c8_missing_name_not_fatal (s : JUnitState) (attrs : AttrMap)
    (h : s.testcase_level = 0) (hn : pyGet attrs "name" = none) :
    ∃ s1, step s (.start "testcase" attrs) = .ok s1 ∧
      s1.num_testcases = s.num_testcases + 1 ∧ s1.cur_test = none ∧ s1.cur_status = none ∧
      (∃ s2, step s1 (.endTag "testcase") = .ok s2 ∧
        s2.passing_tests = s1.passing_tests ++ [none] ∧
        s2.nonpassing_tests = s1.nonpassing_tests) ∧
      (∀ k : ChildKind, ∃ s3 s4,
        step s1 (childEvent k) = .ok s3 ∧ step s3 (.endTag "testcase") = .ok s4 ∧
        s4.nonpassing_tests (childLabel k) = s1.nonpassing_tests (childLabel k) ++ [none] ∧
        s4.passing_tests = s1.passing_tests ∧
        ∀ lbl, lbl ≠ childLabel k → s4.nonpassing_tests lbl = s1.nonpassing_tests lbl) := by
  have hstep : step s (.start "testcase" attrs) =
      start_testcase { s with cur_tag := "testcase" } attrs := by
    simp [step, startElement, pyKey]
  obtain ⟨s1, h1, h2, h3, h4, h5, h6, h7⟩ :=
    start_testcase_noname { s with cur_tag := "testcase" } attrs (by exact h) hn
  refine ⟨s1, by rw [hstep, h1], by exact h2, h3, h4, ?_, ?_⟩
  · refine ⟨end_testcase s1, step_end s1, ?_, ?_⟩
    · obtain ⟨e1, e2⟩ := end_passing s1 h4
      rw [e1, h3]
    · exact (end_passing s1 h4).2
  · intro k
    have hcs3 : (childNext s1 k).cur_status = some (childLabel k) := by cases k <;> rfl
    have hne : childLabel k ≠ "" := by cases k <;> simp [childLabel]
    have hnp3 : (childNext s1 k).nonpassing_tests = s1.nonpassing_tests := by
      cases k <;> rfl
    have hct3 : (childNext s1 k).cur_test = s1.cur_test := by cases k <;> rfl
    have hpp3 : (childNext s1 k).passing_tests = s1.passing_tests := by cases k <;> rfl
    obtain ⟨e1, e2, e3⟩ := end_nonpassing (childNext s1 k) (childLabel k) hcs3 hne
    refine ⟨childNext s1 k, end_testcase (childNext s1 k), step_child s1 k h5, step_end _,
      ?_, ?_, ?_⟩
    · rw [e2, congrFun hnp3 _, hct3, h3]
    · rw [e1, hpp3]
    · intro lbl hlbl
      rw [e3 lbl hlbl, congrFun hnp3 lbl]

/-- Witness for C8 at a concrete mangled `<testcase>` element. -/
theorem c8_witness :
    outsideState.testcase_level = 0 ∧ pyGet c8Attrs "name" = none ∧
    (∃ s1, step outsideState (.start "testcase" c8Attrs) = .ok s1 ∧
      s1.num_testcases = outsideState.num_testcases + 1 ∧ s1.cur_test = none ∧
      s1.cur_status = none ∧
      (∃ s2, step s1 (.endTag "testcase") = .ok s2 ∧
        s2.passing_tests = s1.passing_tests ++ [none] ∧
        s2.nonpassing_tests = s1.nonpassing_tests) ∧
      (∀ k : ChildKind, ∃ s3 s4,
        step s1 (childEvent k) = .ok s3 ∧ step s3 (.endTag "testcase") = .ok s4 ∧
        s4.nonpassing_tests (childLabel k) = s1.nonpassing_tests (childLabel k) ++ [none] ∧
        s4.passing_tests = s1.passing_tests ∧
        ∀ lbl, lbl ≠ childLabel k → s4.nonpassing_tests lbl = s1.nonpassing_tests lbl)) :=
  ⟨rfl, rfl, c8_missing_name_not_fatal outsideState c8Attrs rfl rfl⟩

/-- Counterexample for C9: a stream ending inside a testcase leaves the
interpreter at nesting level one; `report` still succeeds and prints exactly
the ordinary aggregate summary — character for character the same lines it
would print at nesting level zero, with no line containing any warning or
truncation marker, and nothing on stderr either. -/
theorem c9_counterexample :
    c9Final.map (fun s => s.testcase_level) = .ok 1 ∧
    c9Final.bind report = .ok c9Lines ∧
    c9Final.bind report = (c9Final.map (fun s => { s with testcase_level := 0 })).bind report ∧
    c9Lines.all (fun l => !(strContains l "WARNING") && !(strContains l "warning") &&
      !(strContains l "truncat") && !(strContains l "Truncat")) = true ∧
    c9Final.map (fun s => s.stderr_lines) = .ok [] :=
  ⟨rfl, rfl, rfl, rfl, rfl⟩

/-- Claim C9 as amended: ending the stream inside a testcase does not crash
the interpreter — the final report still renders — but the
truncated-document condition is not surfaced anywhere: the report output
does not depend on the nesting level at all. -/
theorem c9_no_truncation_warning :
    (∀ (s : JUnitState) (v : Int), report { s with testcase_level := v } = report s) ∧
    c9Final.map (fun s => s.testcase_level) = .ok 1 ∧
    (∃ ls, c9Final.bind report = .ok ls) :=
  ⟨fun _ _ => rfl, rfl, ⟨c9Lines, rfl⟩⟩

/-- Claim C10: an `<error>`, `<failure>` or `<skipped>` start event arriving
outside any testcase aborts the parse with an assertion failure, since each
of these handlers asserts nesting level one on entry. -/
theorem c10_status_outside_testcase (s : JUnitState) (attrs : AttrMap)
    (h : s.testcase_level = 0) :
    step s (.start "error" attrs) = .error .assertionError ∧
    step s (.start "failure" attrs) = .error .assertionError ∧
    step s (.start "skipped" attrs) = .error .assertionError := by
  refine ⟨?_, ?_, ?_⟩ <;>
    simp [step, startElement, pyKey, start_error, start_failure, start_skipped, h]

/-- Witness for C10 at the concrete initial state. -/
theorem c10_witness :
    outsideState.testcase_level = 0 ∧
    (step outsideState (.start "error" []) = .error .assertionError ∧
     step outsideState (.start "failure" []) = .error .assertionError ∧
     step outsideState (.start "skipped" []) = .error .assertionError) :=
  ⟨rfl, c10_status_outside_testcase outsideState [] rfl⟩
